import Mathlib

/-!
Verification of the snap-to-frame rendering engine.

This file shallowly embeds the frame-rendering engine of the repository:
the interactive engine `applyFrame` (src/lib/frameEngine.ts, richest
revision, lines 158-355), the background-task engine `applyFrameInWorker`
(src/workers/bulkWorker.ts, richest revision, lines 43-427), the color
validator/sanitizer (src/lib/utils.ts and the worker-local copy), the bulk
batch driver `processImagesInWorker` (src/lib/workerUtils.ts) together
with the batch-fatal decision of `ExportBar` (src/unnamed/part_002), and
the worker message handler (bulkWorker.ts lines 430-453).

Numbers are embedded as rationals (JS numbers used by the engine stay
exact on the inputs of interest; the engine itself only adds, subtracts,
multiplies, divides, takes min/max and one ceiling).  The Canvas 2D
surface is embedded as a trace semantics: a render produces the list of
pixel-affecting drawing operations (fills, image draws, shadow fills,
strokes), each carrying the full style and the active clip region, plus
the canvas dimensions and the final crop.  Two renders with equal traces
are pixel-identical.  Host-dependent behaviour (whether the surface can
provide a 2D context, how its CSS parser reacts to a non-hex color
string, whether a gradient stop is accepted, whether a file decodes) is
abstracted into a `Host` record of oracles; blob encoding success is
abstracted (no claim concerns EncodeError).
-/

namespace SnapToFrame

/-- Fit mode of the frame configuration (src/types/frame.ts line 1). -/
inductive FitMode
  | contain
  | cover
deriving DecidableEq

/-- Output format (src/types/frame.ts line 3). -/
inductive ExportFormat
  | png
  | jpg
deriving DecidableEq

/-- Border stroke style (src/types/frame.ts line 5). -/
inductive BorderStyle
  | solid
  | dashed
  | dotted
deriving DecidableEq

/-- Background fill strategy (src/types/frame.ts line 7). -/
inductive BackgroundType
  | solid
  | gradient
deriving DecidableEq

/-- Gradient axis (src/types/frame.ts line 16). -/
inductive GradientDirection
  | horizontal
  | vertical
  | diagonal
deriving DecidableEq

/-- FrameConfig (src/types/frame.ts lines 9-27; the worker re-declares the
same shape inline in bulkWorker.ts lines 7-25). -/
structure FrameConfig where
  width : ℚ
  height : ℚ
  background : String
  backgroundType : BackgroundType
  backgroundGradientStart : String
  backgroundGradientEnd : String
  backgroundGradientDirection : GradientDirection
  padding : ℚ
  fit : FitMode
  borderRadius : ℚ
  shadow : Bool
  shadowSpread : ℚ
  border : Bool
  borderColor : String
  borderWidth : ℚ
  borderStyle : BorderStyle
  format : ExportFormat
deriving DecidableEq

/-- A decoded source image: known pixel dimensions plus the decoded RGBA
bytes.  Both engines receive the same decoded pixels (the interactive one
as a drawable handle, the worker as an ImageData buffer put onto a
temporary canvas, bulkWorker.ts lines 160-166); the trace records which
pixels were drawn. -/
structure SourceImage where
  width : ℚ
  height : ℚ
  data : List ℕ
deriving DecidableEq

/-- Oracles for everything the engine delegates to its host surface:
whether a 2D context can be acquired, the value observed in
`ctx.fillStyle` right after assigning a non-hex color string (models the
surface CSS color parser: an accepted string reads back as a color, a
rejected empty read models the failure the code tests for), whether
`addColorStop` accepts a color, and how a file decodes for the bulk
driver. -/
structure Host where
  ctxOk : Bool
  fillStyleAfter : String → String
  gradientStopOk : String → Bool
  decode : String → Except String SourceImage

/-- The test `color.startsWith('#')` of both validators, embedded
structurally on the character list. -/
def startsWithHash (s : String) : Bool :=
  match s.data with
  | '#' :: _ => true
  | _ => false

/-- One hex digit, as tested by the character class `[A-Fa-f0-9]`. -/
def isHexDigit (c : Char) : Bool :=
  ('A' ≤ c && c ≤ 'F') || ('a' ≤ c && c ≤ 'f') || ('0' ≤ c && c ≤ '9')

/-- The anchored hex pattern of both validators:
`/^#([A-Fa-f0-9]{3}|[A-Fa-f0-9]{6}|[A-Fa-f0-9]{8})$/`
(src/lib/utils.ts line 31, bulkWorker.ts line 74). -/
def hexColorTest (s : String) : Bool :=
  match s.data with
  | '#' :: rest =>
      (rest.length == 3 || rest.length == 6 || rest.length == 8)
        && rest.all isHexDigit
  | _ => false

/-- Worker-local color validator (bulkWorker.ts lines 68-84): empty
string is invalid; a string starting with `#` is valid iff it matches the
hex pattern; any other string is probed against the surface parser and is
valid iff the read-back fill style is non-empty. -/
def workerIsValidColor (host : Host) (color : String) : Bool :=
  if color = "" then false
  else if startsWithHash color then hexColorTest color
  else host.fillStyleAfter color != ""

/-- Worker-local sanitizer (bulkWorker.ts lines 86-95). -/
def workerSanitizeColor (host : Host) (color fallback : String) : String :=
  if workerIsValidColor host color then color
  else if workerIsValidColor host fallback then fallback
  else "#ffffff"

/-- Main-thread color validator (src/lib/utils.ts lines 13-38).  It
additionally fails when no 2D context is available, and for non-hex
strings accepts when the read-back style equals the input or is
non-empty. -/
def utilsIsValidColor (host : Host) (color : String) : Bool :=
  if color = "" then false
  else if host.ctxOk = false then false
  else if startsWithHash color then hexColorTest color
  else (host.fillStyleAfter color == color) || (host.fillStyleAfter color != "")

/-- Main-thread sanitizer (src/lib/utils.ts lines 46-51); the source
defaults `fallback` to the literal `#ffffff`. -/
def utilsSanitizeColor (host : Host) (color fallback : String) : String :=
  if utilsIsValidColor host color then color
  else if utilsIsValidColor host fallback then fallback
  else "#ffffff"

/-- A drawable outline: plain rectangle, or the rounded rectangle built
by `createRoundedRectPath` (frameEngine.ts lines 222-256, duplicated in
bulkWorker.ts lines 263-297 and, inline, lines 211-258). -/
inductive Shape
  | rect (x y w h : ℚ)
  | roundedRect (x y w h radius : ℚ)
deriving DecidableEq

/-- A fill style: a solid color string, or the linear gradient built by
`createLinearGradient` plus its color stops (bulkWorker.ts
lines 119-141). -/
inductive FillStyle
  | color (c : String)
  | linearGradient (x0 y0 x1 y1 : ℚ) (stops : List (ℚ × String))
deriving DecidableEq

/-- One pixel-affecting operation of a render trace.  Each operation
carries the full state it is executed under: the active clip shapes
(intersection of all listed shapes) and, for the shadow pass, the shadow
parameters.  Fill-style probe assignments made by the color validator
draw nothing and are not part of the trace. -/
inductive DrawOp
  | fill (style : FillStyle) (shape : Shape) (clip : List Shape)
  | drawImage (src : SourceImage) (x y w h : ℚ) (clip : List Shape)
  | shadowFill (shadowColor : String) (blur offX offY : ℚ)
      (style : FillStyle) (shape : Shape) (clip : List Shape)
  | stroke (strokeColor : String) (lineWidth : ℚ) (dash : List ℚ)
      (shape : Shape) (clip : List Shape)
deriving DecidableEq

/-- A thrown render error: the message of the `Error`, together with the
drawing operations already executed when it was thrown (empty when the
render failed before any drawing). -/
structure EngineError where
  opsBefore : List DrawOp
  message : String
deriving DecidableEq

/-- A finished render: working-canvas dimensions, the trace of drawing
operations in working-canvas coordinates, the crop applied at export
time (the source origin of the copied sub-rectangle, when one is), the
exported dimensions, the MIME type and the encoder quality. -/
structure Render where
  canvasW : ℚ
  canvasH : ℚ
  ops : List DrawOp
  crop : Option (ℚ × ℚ)
  outW : ℚ
  outH : ℚ
  mime : String
  quality : ℚ
deriving DecidableEq

/-- Placement rectangle of the source image inside the image area. -/
structure Placement where
  x : ℚ
  y : ℚ
  w : ℚ
  h : ℚ
deriving DecidableEq

/-- Geometry resolver.  Both engines compute the drawn rectangle with
literally identical code (frameEngine.ts lines 182-219, bulkWorker.ts
lines 168-199): aspect-ratio comparison, then centering inside the image
area. -/
def resolvePlacement (imageW imageH areaW areaH areaX areaY : ℚ)
    (fit : FitMode) : Placement :=
  let imageAspect := imageW / imageH
  let frameAspect := areaW / areaH
  match fit with
  | FitMode.contain =>
      if imageAspect > frameAspect then
        let drawWidth := areaW
        let drawHeight := areaW / imageAspect
        ⟨areaX + (areaW - drawWidth) / 2, areaY + (areaH - drawHeight) / 2,
          drawWidth, drawHeight⟩
      else
        let drawHeight := areaH
        let drawWidth := areaH * imageAspect
        ⟨areaX + (areaW - drawWidth) / 2, areaY + (areaH - drawHeight) / 2,
          drawWidth, drawHeight⟩
  | FitMode.cover =>
      if imageAspect > frameAspect then
        let drawHeight := areaH
        let drawWidth := areaH * imageAspect
        ⟨areaX + (areaW - drawWidth) / 2, areaY + (areaH - drawHeight) / 2,
          drawWidth, drawHeight⟩
      else
        let drawWidth := areaW
        let drawHeight := areaW / imageAspect
        ⟨areaX + (areaW - drawWidth) / 2, areaY + (areaH - drawHeight) / 2,
          drawWidth, drawHeight⟩

/-- Effective corner radius: both richest engines clamp the requested
radius to half the drawn width and half the drawn height, and use 0 when
no radius is requested (frameEngine.ts lines 258-260, bulkWorker.ts
lines 299-301 and 204-208). -/
def effectiveRadius (borderRadius drawWidth drawHeight : ℚ) : ℚ :=
  if borderRadius > 0 then
    min (min borderRadius (drawWidth / 2)) (drawHeight / 2)
  else 0

/-- The clip installed around an image draw when the effective radius is
positive: the rounded rectangle of the drawn bounds. -/
def imageClip (p : Placement) (radius : ℚ) : List Shape :=
  if radius > 0 then [Shape.roundedRect p.x p.y p.w p.h radius] else []

/-- The shape used for the shadow pass and the border stroke: rounded
when the effective radius is positive, plain otherwise (frameEngine.ts
lines 270-280 and 330-335). -/
def placedShape (p : Placement) (radius : ℚ) : Shape :=
  if radius > 0 then Shape.roundedRect p.x p.y p.w p.h radius
  else Shape.rect p.x p.y p.w p.h

/-- Dash pattern per border style (frameEngine.ts lines 321-327). -/
def dashPattern : BorderStyle → List ℚ
  | BorderStyle.dashed => [8, 4]
  | BorderStyle.dotted => [2, 4]
  | BorderStyle.solid => []

/-- Output MIME type (frameEngine.ts line 351, bulkWorker.ts line 413). -/
def mimeOf : ExportFormat → String
  | ExportFormat.jpg => "image/jpeg"
  | ExportFormat.png => "image/png"

/-- The two-pass shadow: an opaque black shape drawn with the shadow
enabled (blur = shadowSpread, offset (0, max 2 (shadowSpread / 5)),
color rgba(0, 0, 0, 0.3)), later covered by the image draw
(frameEngine.ts lines 263-281, bulkWorker.ts lines 304-322). -/
def shadowPassOp (config : FrameConfig) (p : Placement) (radius : ℚ)
    (clip : List Shape) : DrawOp :=
  DrawOp.shadowFill "rgba(0, 0, 0, 0.3)" config.shadowSpread 0
    (max 2 (config.shadowSpread / 5))
    (FillStyle.color "#000000") (placedShape p radius) clip

/-- Interactive engine `applyFrame` (frameEngine.ts, richest revision,
lines 158-355).  The canvas is exactly the frame size, the raw
`config.background` string is assigned as the fill style with no
validation, the image is placed by the shared geometry, the shadow (when
enabled) is drawn as a black placed shape then covered by the clipped
image draw, and the border (when enabled with positive width) is
stroked along the placed shape with the raw `config.borderColor`.
Blob encoding success is abstracted. -/
def applyFramePlan (host : Host) (image : SourceImage)
    (config : FrameConfig) : Except EngineError Render :=
  if host.ctxOk = false then
    Except.error ⟨[], "Failed to get 2D context from canvas"⟩
  else
    let bgOp := DrawOp.fill (FillStyle.color config.background)
      (Shape.rect 0 0 config.width config.height) []
    let imageAreaWidth := config.width - config.padding * 2
    let imageAreaHeight := config.height - config.padding * 2
    let imageAreaX := config.padding
    let imageAreaY := config.padding
    let p := resolvePlacement image.width image.height
      imageAreaWidth imageAreaHeight imageAreaX imageAreaY config.fit
    let radius := effectiveRadius config.borderRadius p.w p.h
    let imageOps :=
      if config.shadow then
        [shadowPassOp config p radius [],
          DrawOp.drawImage image p.x p.y p.w p.h (imageClip p radius)]
      else
        [DrawOp.drawImage image p.x p.y p.w p.h (imageClip p radius)]
    let borderOps :=
      if config.border ∧ config.borderWidth > 0 then
        [DrawOp.stroke config.borderColor config.borderWidth
          (dashPattern config.borderStyle) (placedShape p radius) []]
      else []
    Except.ok
      { canvasW := config.width
        canvasH := config.height
        ops := bgOp :: (imageOps ++ borderOps)
        crop := none
        outW := config.width
        outH := config.height
        mime := mimeOf config.format
        quality := 19 / 20 }

/-- Shadow extent of the worker engine (bulkWorker.ts lines 47-50):
`config.shadow ? Math.ceil(config.shadowSpread + Math.max(2,
config.shadowSpread / 5)) : 0`. -/
def workerShadowExtentInt (config : FrameConfig) : ℤ :=
  if config.shadow then
    ⌈config.shadowSpread + max 2 (config.shadowSpread / 5)⌉
  else 0

/-- The shadow extent as the rational it is used at in canvas
coordinates. -/
def workerShadowExtent (config : FrameConfig) : ℚ :=
  (workerShadowExtentInt config : ℚ)

/-- Error message for an invalid background color
(bulkWorker.ts lines 145-147). -/
def invalidBackgroundMsg (raw : String) : String :=
  "Invalid background color: \"" ++ raw ++
    "\". Please enter a valid color value (e.g., #ffffff, rgb(255,255,255), or a named color like \"red\")."

/-- Error message for an invalid gradient start color
(bulkWorker.ts lines 105-107). -/
def invalidGradientStartMsg (raw : String) : String :=
  "Invalid gradient start color: \"" ++ raw ++
    "\". Please enter a valid color value (e.g., #ffffff, rgb(255,255,255), or a named color like \"red\")."

/-- Error message for an invalid gradient end color
(bulkWorker.ts lines 110-112). -/
def invalidGradientEndMsg (raw : String) : String :=
  "Invalid gradient end color: \"" ++ raw ++
    "\". Please enter a valid color value (e.g., #ffffff, rgb(255,255,255), or a named color like \"red\")."

/-- Error message when adding a gradient color stop fails
(bulkWorker.ts lines 137-139): names both stop values. -/
def gradientStopFailMsg (rawStart rawEnd : String) : String :=
  "Invalid gradient color value. Please check your gradient start color (\"" ++
    rawStart ++ "\") and end color (\"" ++ rawEnd ++
    "\"). Colors must be valid hex codes (e.g., #ffffff) or other valid CSS color values."

/-- Error message for an invalid border color
(bulkWorker.ts lines 360-362). -/
def invalidBorderMsg (raw : String) : String :=
  "Invalid border color: \"" ++ raw ++
    "\". Please enter a valid color value (e.g., #000000, rgb(0,0,0), or a named color like \"black\")."

/-- The background fill style chosen by the worker engine (bulkWorker.ts
lines 97-151): for a gradient background, empty stop strings default to
`#ffffff` / `#f0f0f0` (JS `||`), both raw stops are validated eagerly
(error before any drawing), the sanitized stops are added onto a linear
gradient whose endpoints follow the direction, and a stop the surface
still rejects raises the combined message; for a solid background, an
empty string defaults to `#ffffff`, the raw value is validated eagerly
and the sanitized value is used.  The direction default (`|| 'vertical'`)
is vacuous here because the direction enum has no empty value. -/
def workerBackgroundStyle (host : Host) (config : FrameConfig)
    (offsetX offsetY : ℚ) : Except EngineError FillStyle :=
  match config.backgroundType with
  | BackgroundType.gradient =>
      let rawStart :=
        if config.backgroundGradientStart = "" then "#ffffff"
        else config.backgroundGradientStart
      let rawEnd :=
        if config.backgroundGradientEnd = "" then "#f0f0f0"
        else config.backgroundGradientEnd
      if workerIsValidColor host rawStart = false then
        Except.error ⟨[], invalidGradientStartMsg rawStart⟩
      else if workerIsValidColor host rawEnd = false then
        Except.error ⟨[], invalidGradientEndMsg rawEnd⟩
      else
        let gradientStart := workerSanitizeColor host rawStart "#ffffff"
        let gradientEnd := workerSanitizeColor host rawEnd "#f0f0f0"
        if host.gradientStopOk gradientStart && host.gradientStopOk gradientEnd then
          match config.backgroundGradientDirection with
          | GradientDirection.horizontal =>
              Except.ok (FillStyle.linearGradient offsetX offsetY
                (offsetX + config.width) offsetY
                [(0, gradientStart), (1, gradientEnd)])
          | GradientDirection.vertical =>
              Except.ok (FillStyle.linearGradient offsetX offsetY
                offsetX (offsetY + config.height)
                [(0, gradientStart), (1, gradientEnd)])
          | GradientDirection.diagonal =>
              Except.ok (FillStyle.linearGradient offsetX offsetY
                (offsetX + config.width) (offsetY + config.height)
                [(0, gradientStart), (1, gradientEnd)])
        else
          Except.error ⟨[], gradientStopFailMsg rawStart rawEnd⟩
  | BackgroundType.solid =>
      let rawBackground :=
        if config.background = "" then "#ffffff" else config.background
      if workerIsValidColor host rawBackground = false then
        Except.error ⟨[], invalidBackgroundMsg rawBackground⟩
      else
        Except.ok (FillStyle.color
          (workerSanitizeColor host rawBackground "#ffffff"))

/-- The drawing-operation trace of the worker engine (bulkWorker.ts
lines 43-387): background fill at the shadow offset, then (lines 201-260)
a rounded clip over the drawn bounds that is installed once
`config.borderRadius > 0` and never restored — it therefore stays active
for the shadow pass, the image draw AND the border stroke — then the
shadow pass and image draw (or the plain image draw), then the border
stroke whose color is validated at stroke time (after the earlier
drawing). -/
def workerOps (host : Host) (image : SourceImage) (config : FrameConfig)
    (offsetX offsetY : ℚ) : Except EngineError (List DrawOp) :=
  match workerBackgroundStyle host config offsetX offsetY with
  | Except.error e => Except.error e
  | Except.ok style =>
      let bgOp := DrawOp.fill style
        (Shape.rect offsetX offsetY config.width config.height) []
      if host.ctxOk = false then
        Except.error ⟨[bgOp], "Failed to get source canvas context"⟩
      else
        let imageAreaWidth := config.width - config.padding * 2
        let imageAreaHeight := config.height - config.padding * 2
        let imageAreaX := config.padding + offsetX
        let imageAreaY := config.padding + offsetY
        let p := resolvePlacement image.width image.height
          imageAreaWidth imageAreaHeight imageAreaX imageAreaY config.fit
        let radius := effectiveRadius config.borderRadius p.w p.h
        let baseClip :=
          if config.borderRadius > 0 then
            [Shape.roundedRect p.x p.y p.w p.h radius]
          else []
        let imageOps :=
          if config.shadow then
            [shadowPassOp config p radius baseClip,
              DrawOp.drawImage image p.x p.y p.w p.h
                (baseClip ++ imageClip p radius)]
          else
            [DrawOp.drawImage image p.x p.y p.w p.h
              (baseClip ++ imageClip p radius)]
        if config.border ∧ config.borderWidth > 0 then
          if workerIsValidColor host config.borderColor = false then
            Except.error ⟨bgOp :: imageOps, invalidBorderMsg config.borderColor⟩
          else
            Except.ok (bgOp :: (imageOps ++
              [DrawOp.stroke (workerSanitizeColor host config.borderColor "#000000")
                config.borderWidth (dashPattern config.borderStyle)
                (placedShape p radius) baseClip]))
        else
          Except.ok (bgOp :: (imageOps ++ []))

/-- Background-task engine `applyFrameInWorker` (bulkWorker.ts, richest
revision, lines 43-427).  The working canvas is enlarged by the shadow
extent on each side, a missing 2D context fails the render, the trace is
produced by `workerOps` at offset (extent, extent), and at export time a
positive extent is cropped back by copying the width-by-height
sub-rectangle starting at (extent, extent) onto a fresh output canvas
(lines 389-418).  Blob encoding success is abstracted. -/
def applyFrameInWorkerPlan (host : Host) (image : SourceImage)
    (config : FrameConfig) : Except EngineError Render :=
  let shadowExtent := workerShadowExtent config
  if host.ctxOk = false then
    Except.error ⟨[], "Failed to get 2D context from OffscreenCanvas"⟩
  else
    match workerOps host image config shadowExtent shadowExtent with
    | Except.error e => Except.error e
    | Except.ok ops =>
        Except.ok
          { canvasW := config.width + shadowExtent * 2
            canvasH := config.height + shadowExtent * 2
            ops := ops
            crop := if shadowExtent > 0 then some (shadowExtent, shadowExtent)
              else none
            outW := config.width
            outH := config.height
            mime := mimeOf config.format
            quality := 19 / 20 }

/-- A selected file, identified by its name; its bytes live behind the
host decode oracle. -/
structure WFile where
  name : String
deriving DecidableEq

/-- One bulk task (src/lib/workerUtils.ts lines 3-7). -/
structure WTask where
  id : String
  file : WFile
  config : FrameConfig
deriving DecidableEq

/-- One bulk success (src/lib/workerUtils.ts lines 9-13). -/
structure WResultEntry where
  id : String
  render : Render
  filename : String
deriving DecidableEq

/-- One bulk failure (src/lib/workerUtils.ts lines 15-19). -/
structure WErrorEntry where
  id : String
  error : String
  filename : String
deriving DecidableEq

/-- The filename base: `name.replace(/\.[^/.]+$/, '')` (workerUtils.ts
line 53) strips one final dot-extension when the part after the last dot
is non-empty and contains no slash and no dot. -/
def stripExtension (name : String) : String :=
  let rev := name.data.reverse
  let ext := rev.takeWhile (fun c => c != '.' && c != '/')
  let rest := rev.dropWhile (fun c => c != '.' && c != '/')
  match rest with
  | '.' :: base => if ext = [] then name else String.mk base.reverse
  | _ => name

/-- The worker message handler (bulkWorker.ts lines 430-453), embedded as
the list of messages it posts in reaction to one delivered message: a
non-`process` message is ignored (early return, nothing posted); a
`process` message is answered by exactly one message carrying the same
id — a `result` with the blob on success, an `error` with the thrown
message on failure. -/
structure WorkerMessage where
  type : String
  id : String
  imageData : SourceImage
  config : FrameConfig

/-- A message posted back by the worker (bulkWorker.ts lines 35-40):
`blob` is present exactly on `result` responses, `error` exactly on
`error` responses. -/
structure WorkerResponse where
  type : String
  id : String
  blob : Option Render
  error : Option String
deriving DecidableEq

/-- The posts of the worker in reaction to one message (bulkWorker.ts
lines 430-453).  Thrown errors are always `Error` values here, so the
`instanceof` fallback to "Unknown error" is never taken. -/
def workerOnMessage (host : Host) (m : WorkerMessage) : List WorkerResponse :=
  if m.type != "process" then []
  else
    match applyFrameInWorkerPlan host m.imageData m.config with
    | Except.ok blob => [⟨"result", m.id, some blob, none⟩]
    | Except.error e => [⟨"error", m.id, none, some e.message⟩]

/-- The fate of one bulk task (workerUtils.ts lines 82-113 plus the
worker round trip): the file is decoded on the main thread (failure is
recorded per task, with the host message, and does not throw), a decoded
task is answered by the worker with a result (then filed under the
`basename_framed.ext` name) or an error (filed with the raw message and
the source file name). -/
def processTask (host : Host) (task : WTask) : Except WErrorEntry WResultEntry :=
  match host.decode task.file.name with
  | Except.error msg => Except.error ⟨task.id, msg, task.file.name⟩
  | Except.ok img =>
      match applyFrameInWorkerPlan host img task.config with
      | Except.ok r =>
          let ext := match task.config.format with
            | ExportFormat.jpg => "jpg"
            | ExportFormat.png => "png"
          Except.ok ⟨task.id, r,
            stripExtension task.file.name ++ "_framed." ++ ext⟩
      | Except.error e => Except.error ⟨task.id, e.message, task.file.name⟩

/-- The run-time state of one `processImagesInWorker` call
(workerUtils.ts lines 31-44): whether the worker is still alive
(`worker.terminate()` has not fired), the tasks posted to the live
worker and not yet answered (the single worker answers them in
submission order), the accumulated result and error lists, and `stuck`,
the number of entries put into `pendingTasks` whose `postMessage` went
to an already-terminated worker — those entries can never be deleted
again, because a terminated worker never posts a response. -/
structure BulkState where
  alive : Bool
  queue : List WTask
  results : List WResultEntry
  errors : List WErrorEntry
  stuck : ℕ

/-- One `worker.onmessage` delivery (workerUtils.ts lines 42-79): the
oldest unanswered posted task is answered (its worker round trip is
`processTask`; the decode already succeeded at submission time and the
decode oracle is a pure function, so re-running it at delivery returns
the same image), the matching `pendingTasks` entry is deleted and the
result or error recorded, and — lines 76-78 — when the pending map is
empty after the delete (no queued and no stuck entries remain) the
handler calls `worker.terminate()`.  A dead worker delivers nothing. -/
def deliverOne (host : Host) (s : BulkState) : BulkState :=
  if s.alive = false then s
  else
    match s.queue with
    | [] => s
    | t :: rest =>
        let s1 : BulkState :=
          match processTask host t with
          | Except.ok r =>
              { s with queue := rest, results := s.results ++ [r] }
          | Except.error e =>
              { s with queue := rest, errors := s.errors ++ [e] }
        if rest = [] ∧ s.stuck = 0 then { s1 with alive := false } else s1

/-- Deliver up to `k` worker responses in order. -/
def deliverMany (host : Host) : ℕ → BulkState → BulkState
  | 0, s => s
  | k + 1, s => deliverMany host k (deliverOne host s)

/-- One iteration of the submission loop (workerUtils.ts lines 82-113):
the file is decoded on the main thread — a decode failure is recorded as
this task's error and nothing is posted — and on success the task is
unconditionally entered into `pendingTasks` (line 99) and posted.  A
post to a live worker queues the task for an answer; a post to a
terminated worker is a silent no-op, leaving the pending entry stranded
(`stuck`). -/
def submitTask (host : Host) (t : WTask) (s : BulkState) : BulkState :=
  match host.decode t.file.name with
  | Except.error msg =>
      { s with errors := s.errors ++ [⟨t.id, msg, t.file.name⟩] }
  | Except.ok _ =>
      if s.alive then { s with queue := s.queue ++ [t] }
      else { s with stuck := s.stuck + 1 }

/-- The submission loop under a response-arrival schedule: `sched`
gives, for each task, how many worker responses are delivered while its
`await createImageBitmap` suspension (workerUtils.ts line 85) has
yielded the main thread, before the task itself is submitted.  The
schedule models the event-loop interleaving the code does not control. -/
def runBulk (host : Host) : List WTask → List ℕ → BulkState → BulkState
  | [], _, s => s
  | t :: rest, sched, s =>
      runBulk host rest sched.tail
        (submitTask host t (deliverMany host (sched.headD 0) s))

/-- Bulk driver `processImagesInWorker` (workerUtils.ts lines 24-126)
under a response-arrival schedule.  After the submission loop, the
returned promise resolves only when the pending map empties
(lines 116-125, the 100 ms poll): a live worker still answers everything
queued, but a stranded (`stuck`) entry is never answered, the pending
map never empties, and the promise never resolves — the hung batch is
`none`. -/
def processImagesInWorker (host : Host) (tasks : List WTask)
    (sched : List ℕ) : Option (List WResultEntry × List WErrorEntry) :=
  let s := runBulk host tasks sched ⟨true, [], [], [], 0⟩
  if s.stuck = 0 then
    let final := deliverMany host s.queue.length s
    some (final.results, final.errors)
  else none

/-- The batch-level fatal decision of `ExportBar.handleBulkExport`
(src/unnamed/part_002 lines 79-84): a fatal "All images failed to
process" is thrown exactly when the error list is non-empty and the
result list is empty. -/
def bulkBatchFatal (results : List WResultEntry)
    (errors : List WErrorEntry) : Bool :=
  decide (0 < errors.length) && (results.length == 0)

/-- Whether a render attempt succeeded. -/
def rendersOk (r : Except EngineError Render) : Bool :=
  match r with
  | Except.ok _ => true
  | Except.error _ => false

/-- The trace of a successful render attempt ([] on failure). -/
def plannedOps (r : Except EngineError Render) : List DrawOp :=
  match r with
  | Except.ok render => render.ops
  | Except.error _ => []

/-- The observable failure of a render attempt: how many drawing
operations had executed when the error was thrown, and its message. -/
def errorInfo (r : Except EngineError Render) : Option (ℕ × String) :=
  match r with
  | Except.ok _ => none
  | Except.error e => some (e.opsBefore.length, e.message)

/-- A host whose CSS parser echoes every probed color string back
(every non-hex string parses). -/
def hostAccept : Host :=
  ⟨true, fun s => s, fun _ => true, fun _ => Except.error "no file"⟩

/-- A host whose CSS parser rejects every probed color string (the
read-back style is empty), so only hex strings validate. -/
def hostReject : Host :=
  ⟨true, fun _ => "", fun _ => true, fun _ => Except.error "no file"⟩

/-- DEFAULT_FRAME_CONFIG (src/types/frame.ts lines 41-59). -/
def defaultFrameConfig : FrameConfig :=
  { width := 1080
    height := 1080
    background := "#ffffff"
    backgroundType := BackgroundType.solid
    backgroundGradientStart := "#ffffff"
    backgroundGradientEnd := "#f0f0f0"
    backgroundGradientDirection := GradientDirection.vertical
    padding := 0
    fit := FitMode.contain
    borderRadius := 0
    shadow := false
    shadowSpread := 20
    border := false
    borderColor := "#000000"
    borderWidth := 2
    borderStyle := BorderStyle.solid
    format := ExportFormat.png }

/-- A 2000 by 1000 decoded source image. -/
def img2000 : SourceImage := ⟨2000, 1000, []⟩

/-- A 100 by 100 decoded source image. -/
def img100 : SourceImage := ⟨100, 100, []⟩

/-- A 4000 by 1000 decoded source image. -/
def img4000 : SourceImage := ⟨4000, 1000, []⟩

/-- The default configuration with a gradient background: the
interactive engine ignores the gradient fields and fills with the solid
`background` string, the worker engine builds the gradient. -/
def gradientConfig : FrameConfig :=
  { defaultFrameConfig with
      backgroundType := BackgroundType.gradient
      background := "#000000" }

/-- The spec scenario of an unresolvable background color string. -/
def notAColorConfig : FrameConfig :=
  { defaultFrameConfig with background := "notacolor" }

/-- A 400 by 400 frame requesting corner radius 1000 with shadow and
border enabled; a 4000 by 1000 source lands as a 400 by 100 drawn
rectangle, so the drawn-dimension clamp gives radius 50 while a
frame-dimension clamp would give 200. -/
def radiusConfig : FrameConfig :=
  { defaultFrameConfig with
      width := 400
      height := 400
      borderRadius := 1000
      shadow := true
      shadowSpread := 10
      border := true }

/-- A host for the bulk scenario: the file named b.png fails to decode,
every other file decodes to the 100 by 100 image. -/
def hostBatch : Host :=
  ⟨true, fun s => s, fun _ => true,
    fun n => if n = "b.png" then Except.error "Failed to decode image"
      else Except.ok img100⟩

/-- A bulk batch of three tasks whose second file is undecodable under
`hostBatch`. -/
def batch3 : List WTask :=
  [⟨"task-0", ⟨"a.png"⟩, defaultFrameConfig⟩,
   ⟨"task-1", ⟨"b.png"⟩, defaultFrameConfig⟩,
   ⟨"task-2", ⟨"c.png"⟩, defaultFrameConfig⟩]

instance {ε α : Type} [DecidableEq ε] [DecidableEq α] :
    DecidableEq (Except ε α) := fun a b =>
  match a, b with
  | Except.ok x, Except.ok y =>
      if h : x = y then Decidable.isTrue (by rw [h])
      else Decidable.isFalse (fun hc => h (Except.ok.inj hc))
  | Except.error x, Except.error y =>
      if h : x = y then Decidable.isTrue (by rw [h])
      else Decidable.isFalse (fun hc => h (Except.error.inj hc))
  | Except.ok _, Except.error _ =>
      Decidable.isFalse (fun hc => Except.noConfusion hc)
  | Except.error _, Except.ok _ =>
      Decidable.isFalse (fun hc => Except.noConfusion hc)

/-- The default configuration with an empty background string. -/
def emptyBgConfig : FrameConfig :=
  { defaultFrameConfig with background := "" }

/-- The render the worker engine produces for the 100 by 100 image under
the default configuration. -/
def defaultRender100 : Render :=
  { canvasW := 1080
    canvasH := 1080
    ops := [DrawOp.fill (FillStyle.color "#ffffff") (Shape.rect 0 0 1080 1080) [],
            DrawOp.drawImage img100 0 0 1080 1080 []]
    crop := none
    outW := 1080
    outH := 1080
    mime := "image/png"
    quality := 19 / 20 }

/-- Claim C9: `sanitizeColor(s, fallback)` returns `s` when
`isValidColor(s)` holds, else the fallback when the fallback is valid,
else the literal `#ffffff`; and with the default fallback `#ffffff` the
function is idempotent, for every host parser. -/
theorem sanitizeColor_contract_idempotent :
    (∀ (host : Host) (s fallback : String),
      utilsSanitizeColor host s fallback =
        if utilsIsValidColor host s then s
        else if utilsIsValidColor host fallback then fallback
        else "#ffffff") ∧
    (∀ (host : Host) (x : String),
      utilsSanitizeColor host (utilsSanitizeColor host x "#ffffff") "#ffffff" =
        utilsSanitizeColor host x "#ffffff") := by
  refine ⟨fun host s fallback => rfl, fun host x => ?_⟩
  unfold utilsSanitizeColor
  by_cases h : utilsIsValidColor host x
  · simp [h]
  · simp only [h, if_false, Bool.false_eq_true]
    by_cases hw : utilsIsValidColor host "#ffffff" <;> simp [hw]

/-- Claim C4: the `contain` placement gives width = areaW and
height = areaW / imageAspect when the image is proportionally wider than
the area, otherwise height = areaH and width = areaH * imageAspect, and
the drawn rectangle has equal margins inside the area on both axes; the
2000 by 1000 image in the 1080 by 1080 default frame lands as the
1080 by 540 rectangle at y 270 in the interactive engine trace. -/
theorem contain_placement (imageW imageH areaW areaH areaX areaY : ℚ)
    (p : Placement)
    (hp : p = resolvePlacement imageW imageH areaW areaH areaX areaY
      FitMode.contain)
    (hiw : 0 < imageW) (hih : 0 < imageH) (haw : 0 < areaW) (hah : 0 < areaH) :
    (imageW / imageH > areaW / areaH →
      p.w = areaW ∧ p.h = areaW / (imageW / imageH)) ∧
    (¬ imageW / imageH > areaW / areaH →
      p.h = areaH ∧ p.w = areaH * (imageW / imageH)) ∧
    (p.x - areaX = (areaX + areaW) - (p.x + p.w)) ∧
    (p.y - areaY = (areaY + areaH) - (p.y + p.h)) ∧
    plannedOps (applyFramePlan hostAccept img2000 defaultFrameConfig) =
      [DrawOp.fill (FillStyle.color "#ffffff") (Shape.rect 0 0 1080 1080) [],
       DrawOp.drawImage img2000 0 270 1080 540 []] := by
  subst hp
  refine ⟨?_, ?_, ?_, ?_, ?_⟩
  · intro h
    simp only [resolvePlacement, if_pos h]
    constructor <;> trivial
  · intro h
    simp only [resolvePlacement, if_neg h]
    constructor <;> trivial
  · by_cases h : imageW / imageH > areaW / areaH
    · simp only [resolvePlacement, if_pos h]; ring
    · simp only [resolvePlacement, if_neg h]; ring
  · by_cases h : imageW / imageH > areaW / areaH
    · simp only [resolvePlacement, if_pos h]; ring
    · simp only [resolvePlacement, if_neg h]; ring
  · norm_num [plannedOps, applyFramePlan, hostAccept, img2000,
      defaultFrameConfig, resolvePlacement, effectiveRadius, imageClip,
      placedShape, mimeOf]

/-- Witness for C4: the scenario placement, obtained from the theorem at
the scenario input. -/
theorem contain_placement_witness :
    (resolvePlacement 2000 1000 1080 1080 0 0 FitMode.contain).w = 1080 ∧
    (resolvePlacement 2000 1000 1080 1080 0 0 FitMode.contain).h = 540 := by
  have h := (contain_placement 2000 1000 1080 1080 0 0 _ rfl
    (by norm_num) (by norm_num) (by norm_num) (by norm_num)).1 (by norm_num)
  refine ⟨h.1, ?_⟩
  rw [h.2]; norm_num

/-- Counterexample for C5: covering a 100 by 100 area with a 100 by 100
image draws exactly the area, so no axis exceeds the area bounds and the
exactly-one-axis-exceeds part of the claim fails. -/
theorem cover_equal_aspect_no_overflow :
    ¬ (((100:ℚ) < (resolvePlacement 100 100 100 100 0 0 FitMode.cover).w ∧
        ¬ (100:ℚ) < (resolvePlacement 100 100 100 100 0 0 FitMode.cover).h) ∨
       ((100:ℚ) < (resolvePlacement 100 100 100 100 0 0 FitMode.cover).h ∧
        ¬ (100:ℚ) < (resolvePlacement 100 100 100 100 0 0 FitMode.cover).w)) := by
  norm_num [resolvePlacement]

/-- Claim C5 (amended): the `cover` placement uses height = areaH and
width = areaH * imageAspect when the image is proportionally wider,
otherwise width = areaW and height = areaW / imageAspect, centered with
equal margins; both drawn dimensions are at least the area dimensions,
and exactly one axis strictly exceeds the area precisely when the image
aspect differs from the area aspect (no axis exceeds when they are
equal). -/
theorem cover_placement (imageW imageH areaW areaH areaX areaY : ℚ)
    (p : Placement)
    (hp : p = resolvePlacement imageW imageH areaW areaH areaX areaY
      FitMode.cover)
    (hiw : 0 < imageW) (hih : 0 < imageH) (haw : 0 < areaW) (hah : 0 < areaH) :
    (imageW / imageH > areaW / areaH →
      p.h = areaH ∧ p.w = areaH * (imageW / imageH)) ∧
    (¬ imageW / imageH > areaW / areaH →
      p.w = areaW ∧ p.h = areaW / (imageW / imageH)) ∧
    (p.x - areaX = (areaX + areaW) - (p.x + p.w)) ∧
    (p.y - areaY = (areaY + areaH) - (p.y + p.h)) ∧
    areaW ≤ p.w ∧ areaH ≤ p.h ∧
    (((areaW < p.w ∧ ¬ areaH < p.h) ∨ (areaH < p.h ∧ ¬ areaW < p.w)) ↔
      imageW / imageH ≠ areaW / areaH) := by
  have haspect : 0 < imageW / imageH := div_pos hiw hih
  subst hp
  by_cases h : imageW / imageH > areaW / areaH
  · have hw : areaW < areaH * (imageW / imageH) := by
      have := (div_lt_iff hah).mp h
      linarith [this]
    refine ⟨fun _ => ?_, fun hn => absurd h hn, ?_, ?_, ?_, ?_, ?_⟩
    · simp only [resolvePlacement, if_pos h]; constructor <;> trivial
    · simp only [resolvePlacement, if_pos h]; ring
    · simp only [resolvePlacement, if_pos h]; ring
    · simp only [resolvePlacement, if_pos h]; exact le_of_lt hw
    · simp only [resolvePlacement, if_pos h]; exact le_refl areaH
    · simp only [resolvePlacement, if_pos h]
      constructor
      · intro _; exact ne_of_gt h
      · intro _
        exact Or.inl ⟨hw, lt_irrefl areaH⟩
  · have hle : imageW / imageH ≤ areaW / areaH := not_lt.mp h
    have hh : areaH ≤ areaW / (imageW / imageH) := by
      rw [le_div_iff haspect]
      have := (le_div_iff hah).mp hle
      linarith [this]
    have hiff : areaH < areaW / (imageW / imageH) ↔
        imageW / imageH < areaW / areaH := by
      rw [lt_div_iff haspect, lt_div_iff hah]
      constructor <;> intro hx <;> linarith [hx]
    refine ⟨fun hg => absurd hg h, fun _ => ?_, ?_, ?_, ?_, ?_, ?_⟩
    · simp only [resolvePlacement, if_neg h]; constructor <;> trivial
    · simp only [resolvePlacement, if_neg h]; ring
    · simp only [resolvePlacement, if_neg h]; ring
    · simp only [resolvePlacement, if_neg h]; exact le_refl areaW
    · simp only [resolvePlacement, if_neg h]; exact hh
    · simp only [resolvePlacement, if_neg h]
      constructor
      · intro hor
        rcases hor with ⟨hlt, _⟩ | ⟨hlt, _⟩
        · exact absurd hlt (lt_irrefl areaW)
        · exact ne_of_lt (hiff.mp hlt)
      · intro hne
        have hlt : imageW / imageH < areaW / areaH := lt_of_le_of_ne hle hne
        exact Or.inr ⟨hiff.mpr hlt, lt_irrefl areaW⟩

/-- Witness for the amended C5: the spec scenario — the same 2000 by
1000 source covered into the 1080 by 1080 area draws 2160 by 1080. -/
theorem cover_placement_witness :
    (resolvePlacement 2000 1000 1080 1080 0 0 FitMode.cover).w = 2160 ∧
    (resolvePlacement 2000 1000 1080 1080 0 0 FitMode.cover).h = 1080 := by
  have h := (cover_placement 2000 1000 1080 1080 0 0 _ rfl
    (by norm_num) (by norm_num) (by norm_num) (by norm_num)).1 (by norm_num)
  refine ⟨?_, h.1⟩
  rw [h.2]; norm_num

/-- The literal `#ffffff` is hex-valid under every host parser. -/
theorem valid_ffffff (host : Host) : workerIsValidColor host "#ffffff" = true := rfl

/-- The literal `#000000` is hex-valid under every host parser. -/
theorem valid_000000 (host : Host) : workerIsValidColor host "#000000" = true := rfl

/-- The literal `#f0f0f0` is hex-valid under every host parser. -/
theorem valid_f0f0f0 (host : Host) : workerIsValidColor host "#f0f0f0" = true := rfl

/-- Sanitizing a valid color returns it unchanged. -/
theorem workerSanitizeColor_of_valid (host : Host) (c fb : String)
    (h : workerIsValidColor host c = true) :
    workerSanitizeColor host c fb = c := by
  simp [workerSanitizeColor, h]

/-- A valid color is in particular non-empty. -/
theorem workerIsValidColor_ne_empty (host : Host) (c : String)
    (h : workerIsValidColor host c = true) : ¬ c = "" := by
  intro he
  rw [he] at h
  simp [workerIsValidColor] at h

/-- A successful worker trace starts with the background fill over the
full frame rectangle at the drawing offset. -/
theorem workerOps_head_shape (host : Host) (image : SourceImage)
    (config : FrameConfig) (offsetX offsetY : ℚ) (ops : List DrawOp)
    (h : workerOps host image config offsetX offsetY = Except.ok ops) :
    ∃ style rest, ops =
      DrawOp.fill style
        (Shape.rect offsetX offsetY config.width config.height) [] :: rest := by
  unfold workerOps at h
  cases hbg : workerBackgroundStyle host config offsetX offsetY with
  | error e => rw [hbg] at h; exact Except.noConfusion h
  | ok style =>
      rw [hbg] at h
      simp only [] at h
      by_cases hctx : host.ctxOk = false
      · rw [if_pos hctx] at h; exact Except.noConfusion h
      · rw [if_neg hctx] at h
        by_cases hbw : config.border = true ∧ config.borderWidth > 0
        · rw [if_pos hbw] at h
          by_cases hv : workerIsValidColor host config.borderColor = false
          · rw [if_pos hv] at h; exact Except.noConfusion h
          · rw [if_neg hv] at h; exact ⟨style, _, (Except.ok.inj h).symm⟩
        · rw [if_neg hbw] at h; exact ⟨style, _, (Except.ok.inj h).symm⟩

/-- Claim C3: with shadow enabled and any spread in [0, 100], the worker
engine allocates its working canvas larger than the frame by the shadow
extent (the ceiling of shadowSpread + max(2, shadowSpread / 5)) on each
side, starts drawing at offset (extent, extent), and always crops back:
the extent is positive, the export copies the sub-rectangle starting at
(extent, extent), and the output dimensions are exactly width by
height. -/
theorem worker_shadow_margin (host : Host) (image : SourceImage)
    (config : FrameConfig) (r : Render)
    (hok : applyFrameInWorkerPlan host image config = Except.ok r)
    (hsh : config.shadow = true)
    (h0 : 0 ≤ config.shadowSpread) (h100 : config.shadowSpread ≤ 100) :
    workerShadowExtentInt config =
      ⌈config.shadowSpread + max 2 (config.shadowSpread / 5)⌉ ∧
    0 < workerShadowExtent config ∧
    r.canvasW = config.width + workerShadowExtent config * 2 ∧
    r.canvasH = config.height + workerShadowExtent config * 2 ∧
    (∃ style rest, r.ops =
      DrawOp.fill style (Shape.rect (workerShadowExtent config)
        (workerShadowExtent config) config.width config.height) [] :: rest) ∧
    r.crop = some (workerShadowExtent config, workerShadowExtent config) ∧
    r.outW = config.width ∧ r.outH = config.height := by
  have hceil : workerShadowExtentInt config =
      ⌈config.shadowSpread + max 2 (config.shadowSpread / 5)⌉ := by
    simp [workerShadowExtentInt, hsh]
  have hge : (2:ℤ) ≤ workerShadowExtentInt config := by
    rw [hceil]
    have h2 : (2:ℚ) ≤ config.shadowSpread + max 2 (config.shadowSpread / 5) := by
      have hm := le_max_left (2:ℚ) (config.shadowSpread / 5)
      linarith
    have := Int.ceil_mono h2
    have h2c : ⌈(2:ℚ)⌉ = (2:ℤ) := by norm_num
    omega
  have hpos : 0 < workerShadowExtent config := by
    unfold workerShadowExtent
    have hz : (0:ℤ) < workerShadowExtentInt config := by omega
    exact_mod_cast hz
  unfold applyFrameInWorkerPlan at hok
  by_cases hctx : host.ctxOk = false
  · rw [if_pos hctx] at hok; exact Except.noConfusion hok
  · rw [if_neg hctx] at hok
    cases hops : workerOps host image config (workerShadowExtent config)
        (workerShadowExtent config) with
    | error e => rw [hops] at hok; exact Except.noConfusion hok
    | ok ops =>
        rw [hops] at hok
        simp only [] at hok
        have hr := Except.ok.inj hok
        obtain ⟨style, rest, hshape⟩ :=
          workerOps_head_shape host image config _ _ ops hops
        subst hr
        refine ⟨hceil, hpos, rfl, rfl, ⟨style, rest, hshape⟩, ?_, rfl, rfl⟩
        simp only [if_pos hpos]

/-- Witness for C3: a concrete shadow render through the worker engine
at spread 10 has a 424 by 424 working canvas cropped at (12, 12) back to
400 by 400. -/
theorem worker_shadow_margin_witness :
    ∃ r, applyFrameInWorkerPlan hostAccept img4000 radiusConfig = Except.ok r ∧
      r.canvasW = radiusConfig.width + workerShadowExtent radiusConfig * 2 ∧
      r.crop = some (workerShadowExtent radiusConfig,
        workerShadowExtent radiusConfig) ∧
      r.outW = radiusConfig.width ∧ r.outH = radiusConfig.height := by
  cases hok : applyFrameInWorkerPlan hostAccept img4000 radiusConfig with
  | error e =>
      exact absurd hok (by
        intro hc
        norm_num [applyFrameInWorkerPlan, workerOps, workerBackgroundStyle,
          valid_ffffff, valid_000000, workerSanitizeColor,
          hostAccept, img4000, radiusConfig, defaultFrameConfig,
          workerShadowExtent, workerShadowExtentInt, resolvePlacement,
          effectiveRadius, imageClip, placedShape, mimeOf, shadowPassOp,
          dashPattern] at hc
        exact Except.noConfusion hc)
  | ok r =>
      have h := worker_shadow_margin hostAccept img4000 radiusConfig r hok
        (by norm_num [radiusConfig, defaultFrameConfig])
        (by norm_num [radiusConfig, defaultFrameConfig])
        (by norm_num [radiusConfig, defaultFrameConfig])
      exact ⟨r, rfl, h.2.2.1, h.2.2.2.2.2.1, h.2.2.2.2.2.2⟩

/-- Under any host with an available surface, the worker engine renders
the 100 by 100 image under the default configuration to the default
render (only hex literals are validated, so no host oracle is
consulted). -/
theorem defaultPlan_eval (host : Host) (hctx : host.ctxOk = true) :
    applyFrameInWorkerPlan host img100 defaultFrameConfig =
      Except.ok defaultRender100 := by
  norm_num [applyFrameInWorkerPlan, workerOps, workerBackgroundStyle,
    valid_ffffff, workerSanitizeColor_of_valid, hctx, img100,
    defaultFrameConfig, defaultRender100, workerShadowExtent,
    workerShadowExtentInt, resolvePlacement, effectiveRadius, imageClip,
    placedShape, mimeOf]

/-- Claim C8: for every delivered message, a non-`process` type provokes
no posted message at all, and a `process` message provokes exactly one
response carrying the same request id — exactly the `result` response
carrying the blob when the render succeeds with that blob, and exactly
the `error` response carrying the thrown message when it fails — never
anything unsolicited. -/
theorem worker_message_protocol (host : Host) (m : WorkerMessage) :
    (¬ m.type = "process" → workerOnMessage host m = []) ∧
    (m.type = "process" →
      (∀ b, applyFrameInWorkerPlan host m.imageData m.config = Except.ok b →
        workerOnMessage host m = [⟨"result", m.id, some b, none⟩]) ∧
      (∀ e, applyFrameInWorkerPlan host m.imageData m.config = Except.error e →
        workerOnMessage host m = [⟨"error", m.id, none, some e.message⟩]) ∧
      (∃ resp, workerOnMessage host m = [resp] ∧
        resp.id = m.id ∧
        ((resp.type = "result" ∧ resp.blob.isSome = true ∧ resp.error = none) ∨
         (resp.type = "error" ∧ resp.blob = none ∧
          resp.error.isSome = true)))) := by
  have hmain : m.type = "process" → workerOnMessage host m =
      (match applyFrameInWorkerPlan host m.imageData m.config with
       | Except.ok b => [⟨"result", m.id, some b, none⟩]
       | Except.error e => [⟨"error", m.id, none, some e.message⟩]) := by
    intro h
    unfold workerOnMessage
    have hcond : (m.type != "process") = false := by
      simp [bne_iff_ne, h]
    rw [hcond]
    simp only [Bool.false_eq_true, if_false]
  constructor
  · intro h
    simp [workerOnMessage, bne_iff_ne, h]
  · intro h
    refine ⟨?_, ?_, ?_⟩
    · intro b hb
      rw [hmain h, hb]
    · intro e he
      rw [hmain h, he]
    · rw [hmain h]
      cases applyFrameInWorkerPlan host m.imageData m.config with
      | ok b => exact ⟨_, rfl, rfl, Or.inl ⟨rfl, rfl, rfl⟩⟩
      | error e => exact ⟨_, rfl, rfl, Or.inr ⟨rfl, rfl, rfl⟩⟩

/-- Witness for C8: a `resize` message provokes nothing; a `process`
message whose render succeeds provokes exactly the one same-id `result`
response carrying the blob. -/
theorem worker_message_protocol_witness :
    workerOnMessage hostAccept ⟨"resize", "id1", img100, defaultFrameConfig⟩ = [] ∧
    workerOnMessage hostAccept ⟨"process", "id2", img100, defaultFrameConfig⟩ =
      [⟨"result", "id2", some defaultRender100, none⟩] :=
  ⟨(worker_message_protocol hostAccept
      ⟨"resize", "id1", img100, defaultFrameConfig⟩).1 (by decide),
   ((worker_message_protocol hostAccept
      ⟨"process", "id2", img100, defaultFrameConfig⟩).2 rfl).1
     defaultRender100 (defaultPlan_eval hostAccept rfl)⟩

/-- Claim C10: in the worker engine an empty background or gradient stop
string never raises an error: the JS `||` defaulting replaces an empty
background by `#ffffff`, an empty gradient start by `#ffffff` and an
empty gradient end by `#f0f0f0` before validation, so the plan is the
same as with the defaults spelled out, the background validation
succeeds (the defaults are hex-valid under every host), and a concrete
empty-background render completes. -/
theorem worker_empty_color_defaults :
    (∀ (host : Host) (image : SourceImage) (config : FrameConfig),
      config.backgroundType = BackgroundType.solid → config.background = "" →
      applyFrameInWorkerPlan host image config =
        applyFrameInWorkerPlan host image
          { config with background := "#ffffff" }) ∧
    (∀ (host : Host) (image : SourceImage) (config : FrameConfig),
      config.backgroundType = BackgroundType.gradient →
      config.backgroundGradientStart = "" →
      config.backgroundGradientEnd = "" →
      applyFrameInWorkerPlan host image config =
        applyFrameInWorkerPlan host image
          { config with
              backgroundGradientStart := "#ffffff"
              backgroundGradientEnd := "#f0f0f0" }) ∧
    (∀ (host : Host) (config : FrameConfig) (ox oy : ℚ),
      config.backgroundType = BackgroundType.solid → config.background = "" →
      workerBackgroundStyle host config ox oy =
        Except.ok (FillStyle.color "#ffffff")) ∧
    (∀ (host : Host) (config : FrameConfig) (ox oy : ℚ),
      config.backgroundType = BackgroundType.gradient →
      config.backgroundGradientStart = "" →
      config.backgroundGradientEnd = "" →
      host.gradientStopOk "#ffffff" = true →
      host.gradientStopOk "#f0f0f0" = true →
      ∃ s, workerBackgroundStyle host config ox oy = Except.ok s) ∧
    rendersOk (applyFrameInWorkerPlan hostReject img100 emptyBgConfig) = true := by
  refine ⟨?_, ?_, ?_, ?_, ?_⟩
  · intro host image config hbt hbg
    have hstyle : ∀ ox oy : ℚ,
        workerBackgroundStyle host { config with background := "#ffffff" } ox oy =
          workerBackgroundStyle host config ox oy := by
      intro ox oy
      simp [workerBackgroundStyle, hbt, hbg]
    simp only [applyFrameInWorkerPlan, workerOps, workerShadowExtent,
      workerShadowExtentInt, shadowPassOp, hstyle]
  · intro host image config hbt hs he
    have hstyle : ∀ ox oy : ℚ,
        workerBackgroundStyle host
          { config with
              backgroundGradientStart := "#ffffff"
              backgroundGradientEnd := "#f0f0f0" } ox oy =
          workerBackgroundStyle host config ox oy := by
      intro ox oy
      simp [workerBackgroundStyle, hbt, hs, he]
    simp only [applyFrameInWorkerPlan, workerOps, workerShadowExtent,
      workerShadowExtentInt, shadowPassOp, hstyle]
  · intro host config ox oy hbt hbg
    simp [workerBackgroundStyle, hbt, hbg, valid_ffffff,
      workerSanitizeColor_of_valid]
  · intro host config ox oy hbt hs he hok1 hok2
    cases hd : config.backgroundGradientDirection <;>
      simp [workerBackgroundStyle, hbt, hs, he, hd, valid_ffffff, valid_f0f0f0,
        workerSanitizeColor_of_valid, hok1, hok2]
  · norm_num [applyFrameInWorkerPlan, workerOps, workerBackgroundStyle,
      rendersOk, valid_ffffff, workerSanitizeColor,
      hostReject, img100, emptyBgConfig, defaultFrameConfig,
      workerShadowExtent, workerShadowExtentInt, resolvePlacement,
      effectiveRadius, imageClip, placedShape, mimeOf]

/-- Witness for C10: the concrete empty-background configuration behaves
exactly like the white-background default. -/
theorem worker_empty_color_defaults_witness :
    applyFrameInWorkerPlan hostReject img100 emptyBgConfig =
      applyFrameInWorkerPlan hostReject img100
        { emptyBgConfig with background := "#ffffff" } :=
  worker_empty_color_defaults.1 hostReject img100 emptyBgConfig rfl rfl

/-- Claim C7 (code bug): on the very three-task scenario of the claim —
second file undecodable — the batch hangs under a reachable event-loop
interleaving.  When the worker answers task 0 while the second file is
still being decoded (schedule [0, 1, 0]), the pending map momentarily
empties and the handler calls `worker.terminate()`; the third task is
then registered as pending and posted to the dead worker, is never
answered, and the returned promise never resolves (`none`) — instead of
completing with 2 results and 1 error as the claim states.  When no
response arrives before the submission loop finishes (schedule
[0, 0, 0]), the batch does complete with 2 results, 1 error, and no
batch-level fatal. -/
theorem bulk_early_terminate_hang :
    processImagesInWorker hostBatch batch3 [0, 1, 0] = none ∧
    (processImagesInWorker hostBatch batch3 [0, 0, 0]).map
      (fun p => (p.1.length, p.2.length, bulkBatchFatal p.1 p.2)) =
      some (2, 1, false) := by
  have hda : hostBatch.decode "a.png" = Except.ok img100 := rfl
  have hdb : hostBatch.decode "b.png" =
    Except.error "Failed to decode image" := rfl
  have hdc : hostBatch.decode "c.png" = Except.ok img100 := rfl
  have hplan := defaultPlan_eval hostBatch rfl
  constructor
  · simp [processImagesInWorker, runBulk, submitTask, deliverMany, deliverOne,
      processTask, batch3, hda, hdb, hdc, hplan, bulkBatchFatal]
  · simp [processImagesInWorker, runBulk, submitTask, deliverMany, deliverOne,
      processTask, batch3, hda, hdb, hdc, hplan, bulkBatchFatal]

/-- With a zero effective radius the image draw is unclipped. -/
theorem imageClip_zero (p : Placement) : imageClip p 0 = [] := by
  simp [imageClip]

/-- With a zero effective radius the placed shape is the plain drawn
rectangle. -/
theorem placedShape_zero (p : Placement) :
    placedShape p 0 = Shape.rect p.x p.y p.w p.h := by
  simp [placedShape]

/-- Counterexample for C1: on a gradient-background configuration the
interactive engine fills with the raw solid `background` string (it has
no gradient path) while the worker engine builds the white-to-grey
linear gradient, so the two rendering functions are not equal. -/
theorem engines_differ_on_gradient :
    applyFramePlan hostAccept img100 gradientConfig ≠
      applyFrameInWorkerPlan hostAccept img100 gradientConfig := by
  intro h
  norm_num [applyFramePlan, applyFrameInWorkerPlan, workerOps,
    workerBackgroundStyle, valid_ffffff, valid_f0f0f0, workerSanitizeColor,
    hostAccept, img100, gradientConfig, defaultFrameConfig, workerShadowExtent,
    workerShadowExtentInt, resolvePlacement, effectiveRadius, imageClip,
    placedShape, mimeOf, dashPattern] at h
  exact FillStyle.noConfusion h

/-- Claim C1 (amended): the two engines produce identical render traces
when the drawing surface is available and the configuration stays on
their common path — solid background with a valid color, shadow
disabled, no corner radius, and a valid border color whenever the border
is drawn.  Outside it they diverge: a gradient background, an invalid
color, a shadow (the worker adds the margin and clips differently), or a
positive corner radius (the worker leaves an extra clip active over the
shadow and border) each break the equality. -/
theorem engines_agree_solid_noshadow (host : Host) (image : SourceImage)
    (config : FrameConfig)
    (hctx : host.ctxOk = true)
    (hbt : config.backgroundType = BackgroundType.solid)
    (hbg : workerIsValidColor host config.background = true)
    (hsh : config.shadow = false)
    (hbr : config.borderRadius ≤ 0)
    (hbc : config.border = true → config.borderWidth > 0 →
      workerIsValidColor host config.borderColor = true) :
    applyFrameInWorkerPlan host image config =
      applyFramePlan host image config := by
  have hext : workerShadowExtent config = 0 := by
    simp [workerShadowExtent, workerShadowExtentInt, hsh]
  have hbg' : ¬ config.background = "" :=
    workerIsValidColor_ne_empty host _ hbg
  have hstyle : workerBackgroundStyle host config 0 0 =
      Except.ok (FillStyle.color config.background) := by
    simp [workerBackgroundStyle, hbt, hbg', hbg, workerSanitizeColor_of_valid]
  have hbrneg : ¬ config.borderRadius > 0 := not_lt.mpr hbr
  by_cases hb : config.border = true ∧ config.borderWidth > 0
  · have hv := hbc hb.1 hb.2
    simp [applyFrameInWorkerPlan, workerOps, applyFramePlan, hext, hctx,
      hstyle, hbrneg, hsh, hb, hv, effectiveRadius, imageClip_zero,
      placedShape_zero, workerSanitizeColor_of_valid]
  · simp [applyFrameInWorkerPlan, workerOps, applyFramePlan, hext, hctx,
      hstyle, hbrneg, hsh, hb, effectiveRadius, imageClip_zero,
      placedShape_zero]

/-- Witness for the amended C1: the two engines agree on the default
configuration. -/
theorem engines_agree_solid_noshadow_witness :
    applyFrameInWorkerPlan hostAccept img100 defaultFrameConfig =
      applyFramePlan hostAccept img100 defaultFrameConfig :=
  engines_agree_solid_noshadow hostAccept img100 defaultFrameConfig rfl rfl
    rfl rfl (by norm_num [defaultFrameConfig])
    (by intro hf; exact absurd hf (by norm_num [defaultFrameConfig]))

/-- Counterexample for C2: the unresolvable color string "notacolor" is
invalid for both validators under a rejecting host parser, yet the
interactive engine succeeds, passing the raw string straight into its
background fill — no error is raised and nothing is replaced. -/
theorem interactive_skips_validation :
    workerIsValidColor hostReject "notacolor" = false ∧
    utilsIsValidColor hostReject "notacolor" = false ∧
    rendersOk (applyFramePlan hostReject img100 notAColorConfig) = true ∧
    plannedOps (applyFramePlan hostReject img100 notAColorConfig) =
      [DrawOp.fill (FillStyle.color "notacolor") (Shape.rect 0 0 1080 1080) [],
       DrawOp.drawImage img100 0 0 1080 1080 []] := by
  refine ⟨rfl, rfl, rfl, ?_⟩
  norm_num [plannedOps, applyFramePlan, hostReject, img100, notAColorConfig,
    defaultFrameConfig, resolvePlacement, effectiveRadius, imageClip,
    placedShape, mimeOf]

/-- Claim C2 (amended): only the worker engine validates
configuration-supplied colors.  There, an invalid (post-defaulting)
background or gradient start raises the descriptive error naming the
field and showing the raw input before any drawing operation, and an
invalid border color raises its descriptive error only at stroke time,
after the background and image have been drawn; the interactive engine
performs no color validation and always renders when a surface is
available. -/
theorem worker_color_validation (host : Host) (image : SourceImage)
    (config : FrameConfig) :
    (host.ctxOk = true → config.backgroundType = BackgroundType.solid →
      workerIsValidColor host
        (if config.background = "" then "#ffffff" else config.background) =
          false →
      applyFrameInWorkerPlan host image config = Except.error
        ⟨[], invalidBackgroundMsg
          (if config.background = "" then "#ffffff"
           else config.background)⟩) ∧
    (host.ctxOk = true → config.backgroundType = BackgroundType.gradient →
      workerIsValidColor host
        (if config.backgroundGradientStart = "" then "#ffffff"
         else config.backgroundGradientStart) = false →
      applyFrameInWorkerPlan host image config = Except.error
        ⟨[], invalidGradientStartMsg
          (if config.backgroundGradientStart = "" then "#ffffff"
           else config.backgroundGradientStart)⟩) ∧
    (host.ctxOk = true → config.backgroundType = BackgroundType.solid →
      workerIsValidColor host config.background = true →
      config.border = true → config.borderWidth > 0 →
      workerIsValidColor host config.borderColor = false →
      errorInfo (applyFrameInWorkerPlan host image config) =
        some ((if config.shadow = true then 3 else 2),
          invalidBorderMsg config.borderColor) ∧
      0 < (if config.shadow = true then 3 else 2)) ∧
    (host.ctxOk = true →
      rendersOk (applyFramePlan host image config) = true) := by
  refine ⟨?_, ?_, ?_, ?_⟩
  · intro hctx hbt hinv
    simp [applyFrameInWorkerPlan, workerOps, workerBackgroundStyle, hctx,
      hbt, hinv]
  · intro hctx hbt hinv
    simp [applyFrameInWorkerPlan, workerOps, workerBackgroundStyle, hctx,
      hbt, hinv]
  · intro hctx hbt hbg hb hw hv
    have hbg' : ¬ config.background = "" :=
      workerIsValidColor_ne_empty host _ hbg
    have hstyle : ∀ ox oy : ℚ, workerBackgroundStyle host config ox oy =
        Except.ok (FillStyle.color config.background) := by
      intro ox oy
      simp [workerBackgroundStyle, hbt, hbg', hbg,
        workerSanitizeColor_of_valid]
    by_cases hsh : config.shadow = true
    · constructor
      · simp [errorInfo, applyFrameInWorkerPlan, workerOps, hctx, hstyle,
          hb, hw, hv, hsh]
      · simp [hsh]
    · constructor
      · simp [errorInfo, applyFrameInWorkerPlan, workerOps, hctx, hstyle,
          hb, hw, hv, hsh]
      · simp [hsh]
  · intro hctx
    simp [applyFramePlan, rendersOk, hctx]

/-- Witness for the amended C2: the scenario input — the worker engine
rejects the "notacolor" background with the descriptive message before
drawing. -/
theorem worker_color_validation_witness :
    applyFrameInWorkerPlan hostReject img100 notAColorConfig = Except.error
      ⟨[], invalidBackgroundMsg
        (if notAColorConfig.background = "" then "#ffffff"
         else notAColorConfig.background)⟩ :=
  (worker_color_validation hostReject img100 notAColorConfig).1 rfl rfl rfl

/-- Claim C6: with a positive requested radius the effective corner
radius is the requested radius clamped to half the drawn width and half
the drawn height; requesting 1000 on a 100 by 100 drawn image yields 50;
and on a concrete render whose 4000 by 1000 source lands as a 400 by 100
drawn rectangle inside a 400 by 400 frame, both engines use radius 50 —
computed from the drawn dimensions, not the frame dimensions — for the
shadow shape, the image clip and the border stroke. -/
theorem effective_radius_clamp :
    (∀ borderRadius drawWidth drawHeight : ℚ, 0 < borderRadius →
      effectiveRadius borderRadius drawWidth drawHeight =
        min borderRadius (min (drawWidth / 2) (drawHeight / 2))) ∧
    effectiveRadius 1000 100 100 = 50 ∧
    plannedOps (applyFramePlan hostAccept img4000 radiusConfig) =
      [DrawOp.fill (FillStyle.color "#ffffff") (Shape.rect 0 0 400 400) [],
       DrawOp.shadowFill "rgba(0, 0, 0, 0.3)" 10 0 2 (FillStyle.color "#000000")
         (Shape.roundedRect 0 150 400 100 50) [],
       DrawOp.drawImage img4000 0 150 400 100
         [Shape.roundedRect 0 150 400 100 50],
       DrawOp.stroke "#000000" 2 [] (Shape.roundedRect 0 150 400 100 50) []] ∧
    plannedOps (applyFrameInWorkerPlan hostAccept img4000 radiusConfig) =
      [DrawOp.fill (FillStyle.color "#ffffff") (Shape.rect 12 12 400 400) [],
       DrawOp.shadowFill "rgba(0, 0, 0, 0.3)" 10 0 2 (FillStyle.color "#000000")
         (Shape.roundedRect 12 162 400 100 50)
         [Shape.roundedRect 12 162 400 100 50],
       DrawOp.drawImage img4000 12 162 400 100
         [Shape.roundedRect 12 162 400 100 50,
          Shape.roundedRect 12 162 400 100 50],
       DrawOp.stroke "#000000" 2 [] (Shape.roundedRect 12 162 400 100 50)
         [Shape.roundedRect 12 162 400 100 50]] := by
  refine ⟨?_, ?_, ?_, ?_⟩
  · intro br w h hbr
    simp only [effectiveRadius, if_pos hbr, min_assoc]
  · norm_num [effectiveRadius, min_def]
  · norm_num [plannedOps, applyFramePlan, hostAccept, img4000, radiusConfig,
      defaultFrameConfig, resolvePlacement, effectiveRadius, imageClip,
      placedShape, mimeOf, shadowPassOp, dashPattern]
  · norm_num [plannedOps, applyFrameInWorkerPlan, workerOps,
      workerBackgroundStyle, valid_ffffff, valid_000000, workerSanitizeColor,
      hostAccept, img4000, radiusConfig, defaultFrameConfig,
      workerShadowExtent, workerShadowExtentInt, resolvePlacement,
      effectiveRadius, imageClip, placedShape, mimeOf, shadowPassOp,
      dashPattern]

/-- Witness for C6: the clamp formula applied at the claim instance. -/
theorem effective_radius_clamp_witness :
    effectiveRadius 1000 100 100 =
      min (1000:ℚ) (min (100 / 2) (100 / 2)) :=
  effective_radius_clamp.1 1000 100 100 (by norm_num)

end SnapToFrame
